import Mathlib

/-!
Verification development for the glyph-preview core of cicero-tui.

The embedding covers `src/preview/character_preview.rs` (the preview session
and glyph rasterizer) and `src/tui/character_preview_canvas.rs` (the canvas
painter).  External collaborators (the freetype backend, the font matcher
`fonts_for`, terminal widget plumbing) are abstracted as parameters; the
candidate navigator `StatefulVec`, whose source file is not part of the two
files above, is modelled from the specification's contract for it.
-/

namespace Cicero

/-- `RenderSize` from character_preview.rs: width and height in pixels
(usize fields; modelled as `Nat`). -/
structure RenderSize where
  width : Nat
  height : Nat
deriving Repr, DecidableEq

/-- `RenderSize::new` from character_preview.rs. -/
def RenderSize.new (width height : Nat) : RenderSize := ⟨width, height⟩

/-- `RenderedCharacter` from character_preview.rs: a 2D byte grid of coverage
values plus the actual rendered extent. -/
structure RenderedCharacter where
  bitmap : List (List Nat)
  glyph_size : RenderSize
deriving Repr, DecidableEq

/-- A freetype glyph bitmap as observed by `render`: `width()`, `rows()` and
the row-major coverage `buffer()` (one byte per pixel, row stride = width for
the 8-bit gray format the code reads). External data, modelled concretely so
the copy loop can be stated. -/
structure GlyphBitmap where
  width : Nat
  rows : Nat
  buffer : List Nat
deriving Repr, DecidableEq

/-- The coverage value of the source glyph bitmap at pixel `(x, y)`:
row-major access with the bitmap's own width as stride. -/
def GlyphBitmap.coverageAt (gb : GlyphBitmap) (x y : Nat) : Nat :=
  gb.buffer.getD (y * gb.width + x) 0

/-- The grid-building block of `CharacterPreview::render`
(character_preview.rs lines 125-141).  The source allocates
`vec![vec![0; size.width]; size.height]` and then assigns
`pixels[y][x] = glyph_bitmap_buffer[y * x_max + x]` for `x < x_max`,
`y < y_max`; every cell is written at most once, so the grid is given
pointwise, preserving the source's index expression `y * x_max + x`. -/
def renderGrid (size : RenderSize) (gb : GlyphBitmap) : RenderedCharacter :=
  let x_max := min size.width gb.width
  let y_max := min size.height gb.rows
  let pixels := (List.range size.height).map fun y =>
    (List.range size.width).map fun x =>
      if x < x_max ∧ y < y_max then gb.buffer.getD (y * x_max + x) 0 else 0
  { bitmap := pixels, glyph_size := RenderSize.new x_max y_max }

/-- Read a cell of a rendered grid (0 outside the allocated grid). -/
def RenderedCharacter.pixelAt (rc : RenderedCharacter) (x y : Nat) : Nat :=
  (rc.bitmap.getD y []).getD x 0

/-- Modelled from the spec: `StatefulVec` (the Candidate Navigator, spec
section 4.1) lives in `src/preview/stateful_vec.rs`, which is not among the
provided source files.  An ordered sequence of items plus a single current
index, or no selection. -/
structure StatefulVec (α : Type) where
  items : List α
  currentIndex : Option Nat
deriving Repr, DecidableEq

namespace StatefulVec

variable {α : Type}

/-- Modelled from the spec: `StatefulVec::new(items, initial_index)`
constructs with the given index if valid (within `[0, len)`), else
"no selection". -/
def new (items : List α) (initialIndex : Option Nat) : StatefulVec α :=
  { items := items
    currentIndex :=
      match initialIndex with
      | some i => if i < items.length then some i else none
      | none => none }

/-- Modelled from the spec: `select_if_found(target)` linearly scans for an
item equal to `target`; if found, moves the cursor there; otherwise the
cursor is left unchanged. -/
def select_if_found [DecidableEq α] (sv : StatefulVec α) (target : α) : StatefulVec α :=
  match sv.items.findIdx? (fun x => x = target) with
  | some i => { sv with currentIndex := some i }
  | none => sv

/-- Modelled from the spec: `current_item()` returns the item at the cursor,
or none when there is no selection. -/
def current_item (sv : StatefulVec α) : Option α :=
  match sv.currentIndex with
  | some i => sv.items[i]?
  | none => none

/-- Modelled from the spec: `has_previous()` is true iff the cursor is not at
index 0 (false when there is no selection). -/
def has_previous (sv : StatefulVec α) : Bool :=
  match sv.currentIndex with
  | some i => decide (0 < i)
  | none => false

/-- Modelled from the spec: `has_next()` is true iff the cursor is not at the
last index (false when there is no selection). -/
def has_next (sv : StatefulVec α) : Bool :=
  match sv.currentIndex with
  | some i => decide (i + 1 < sv.items.length)
  | none => false

/-- Modelled from the spec: `select_previous()` decrements the cursor by one
if `has_previous()` holds; otherwise a no-op. -/
def select_previous (sv : StatefulVec α) : StatefulVec α :=
  if sv.has_previous then
    { sv with currentIndex := sv.currentIndex.map (· - 1) }
  else sv

/-- Modelled from the spec: `select_next()` increments the cursor by one if
`has_next()` holds; otherwise a no-op. -/
def select_next (sv : StatefulVec α) : StatefulVec α :=
  if sv.has_next then
    { sv with currentIndex := sv.currentIndex.map (· + 1) }
  else sv

end StatefulVec

/-- The error outcomes of the preview session, as they are distinguishable
through `Box<dyn Error>`: the repository's own `Error::GlyphNotFound`, any
error bubbled up from a collaborator (font matcher, freetype library init,
face loading, rendering), and a marker for the `unwrap()` panic site in
`CharacterPreview::new` (reaching it aborts the program rather than
returning; it is provably unreachable). -/
inductive PreviewError (ε : Type) where
  | glyphNotFound (chr : Char)
  | backend (e : ε)
  | panicked
deriving Repr, DecidableEq

/-- `CharacterPreview` from character_preview.rs: the target character, the
navigator over matching font paths, and the currently loaded face.  The
freetype `Library` handle carries no observable state here and the face type
`φ` is abstract (faces are opaque freetype objects). -/
structure CharacterPreview (φ : Type) where
  chr : Char
  paths_for_matching_fonts : StatefulVec String
  current_font : φ
deriving Repr, DecidableEq

namespace CharacterPreview

variable {ε φ : Type}

/-- The navigator state built in `CharacterPreview::new` (character_preview.rs
lines 57-60): a `StatefulVec` over the candidate paths with initial index 0,
then `select_if_found` on the preferred path when one is given. -/
def initialNavigator (font_paths : List String) (preferred_font_path : Option String) :
    StatefulVec String :=
  let paths0 := StatefulVec.new font_paths (some 0)
  match preferred_font_path with
  | some font_path => paths0.select_if_found font_path
  | none => paths0

/-- `CharacterPreview::new` (character_preview.rs lines 51-72).
`fontsFor` is the result of the external `fonts_for(chr)` call, `libInit`
the result of `Library::init()`, and `loadFace` the behaviour of
`library.new_face(path, 0)`.  The source order is preserved: matcher call,
empty-list check, navigator construction, preference selection, library
init, face load (via `current_item().unwrap()` — the `none` branch is the
panic site). -/
def new (fontsFor : Except ε (List String)) (libInit : Except ε Unit)
    (loadFace : String → Except ε φ) (chr : Char) (preferred_font_path : Option String) :
    Except (PreviewError ε) (CharacterPreview φ) :=
  match fontsFor with
  | .error e => .error (.backend e)
  | .ok font_paths =>
    if font_paths.isEmpty then .error (.glyphNotFound chr)
    else
      let paths_for_matching_fonts := initialNavigator font_paths preferred_font_path
      match libInit with
      | .error e => .error (.backend e)
      | .ok _ =>
        match paths_for_matching_fonts.current_item with
        | none => .error .panicked
        | some current_path =>
          match loadFace current_path with
          | .error e => .error (.backend e)
          | .ok current_font =>
            .ok { chr := chr
                  paths_for_matching_fonts := paths_for_matching_fonts
                  current_font := current_font }

/-- `CharacterPreview::get_current_font_path` (lines 74-79). -/
def get_current_font_path (cp : CharacterPreview φ) : Option String :=
  cp.paths_for_matching_fonts.current_item

/-- `CharacterPreview::has_previous_font` (lines 81-83). -/
def has_previous_font (cp : CharacterPreview φ) : Bool :=
  cp.paths_for_matching_fonts.has_previous

/-- `CharacterPreview::has_next_font` (lines 94-96). -/
def has_next_font (cp : CharacterPreview φ) : Bool :=
  cp.paths_for_matching_fonts.has_next

/-- `CharacterPreview::select_previous_font` (lines 85-92).  Returns the
post-call session state together with the `Result<()>`: the navigator is
moved first; on a successful reload the face is replaced, on a reload error
the early return leaves `current_font` unassigned while the cursor stays
moved. -/
def select_previous_font (loadFace : String → Except ε φ) (cp : CharacterPreview φ) :
    CharacterPreview φ × Except (PreviewError ε) Unit :=
  let cp1 := { cp with paths_for_matching_fonts := cp.paths_for_matching_fonts.select_previous }
  match cp1.paths_for_matching_fonts.current_item with
  | some current_font_path =>
    match loadFace current_font_path with
    | .ok face => ({ cp1 with current_font := face }, .ok ())
    | .error e => (cp1, .error (.backend e))
  | none => (cp1, .error (.glyphNotFound cp1.chr))

/-- `CharacterPreview::select_next_font` (lines 98-105), same shape as
`select_previous_font`. -/
def select_next_font (loadFace : String → Except ε φ) (cp : CharacterPreview φ) :
    CharacterPreview φ × Except (PreviewError ε) Unit :=
  let cp1 := { cp with paths_for_matching_fonts := cp.paths_for_matching_fonts.select_next }
  match cp1.paths_for_matching_fonts.current_item with
  | some current_font_path =>
    match loadFace current_font_path with
    | .ok face => ({ cp1 with current_font := face }, .ok ())
    | .error e => (cp1, .error (.backend e))
  | none => (cp1, .error (.glyphNotFound cp1.chr))

/-- `CharacterPreview::render` (lines 119-144).  `backend` abstracts the
fallible freetype sequence `set_pixel_sizes` / `load_char` / `glyph().bitmap()`
on the current face: it yields the glyph bitmap the copy loop reads, or an
error.  On success the grid is built exactly as in the source
(see `renderGrid`). -/
def render (backend : φ → RenderSize → Except ε GlyphBitmap)
    (cp : CharacterPreview φ) (size : RenderSize) :
    Except ε RenderedCharacter :=
  match backend cp.current_font size with
  | .error e => .error e
  | .ok glyph_bitmap => .ok (renderGrid size glyph_bitmap)

end CharacterPreview

/-! Canvas painter, from character_preview_canvas.rs. -/

/-- `BRAILLE_PATTERN_DOTS_PER_CELL_HORIZONTAL` (canvas line 11). -/
def BRAILLE_PATTERN_DOTS_PER_CELL_HORIZONTAL : Nat := 2

/-- `BRAILLE_PATTERN_DOTS_PER_CELL_VERTICAL` (canvas line 12). -/
def BRAILLE_PATTERN_DOTS_PER_CELL_VERTICAL : Nat := 4

/-- `RENDER_PADDING_IN_CELLS` (canvas line 14). -/
def RENDER_PADDING_IN_CELLS : Nat := 4

/-- The canvas pixel bounding box computed in `draw_character_preview`
(canvas lines 74-79): `(rect.width - RENDER_PADDING_IN_CELLS) *
BRAILLE_PATTERN_DOTS_PER_CELL_HORIZONTAL` and the vertical counterpart.
`rect.width`/`rect.height` and the constants are `u16`, so the products wrap
modulo 2^16; the subtraction cannot underflow because callers are guarded by
the early return for rects smaller than the padding. -/
def canvasPixelSize (rect_width rect_height : Nat) : RenderSize :=
  RenderSize.new
    (((rect_width - RENDER_PADDING_IN_CELLS) * BRAILLE_PATTERN_DOTS_PER_CELL_HORIZONTAL) % 2 ^ 16)
    (((rect_height - RENDER_PADDING_IN_CELLS) * BRAILLE_PATTERN_DOTS_PER_CELL_VERTICAL) % 2 ^ 16)

/-- The square render target computed in `draw_character_preview`
(canvas lines 81-84): side = the smaller of the two canvas pixel dimensions. -/
def renderPixelSize (canvas_pixel_size : RenderSize) : RenderSize :=
  let render_pixel_length := min canvas_pixel_size.width canvas_pixel_size.height
  RenderSize.new render_pixel_length render_pixel_length

/-- `CharacterPreviewShape::draw` (canvas lines 184-200): for each row `y`
and column `x` of the rendered bitmap, skip zero pixels and paint a dot at
`(x + x_padding, y + y_padding)`.  The painted dots are collected in paint
order. -/
def characterPreviewShapeDraw (rendered_character : RenderedCharacter)
    (x_padding y_padding : Nat) : List (Nat × Nat) :=
  (rendered_character.bitmap.enum.map fun yrow =>
    (yrow.2.enum.filter fun xpix => xpix.2 ≠ 0).map fun xpix =>
      (xpix.1 + x_padding, yrow.1 + y_padding)).flatten

/-- `ToufuShape::draw` (canvas lines 208-216): paint every dot
`(x + x_padding, y + y_padding)` for `x` in `0..size.width` (outer loop) and
`y` in `0..size.height` (inner loop). -/
def toufuShapeDraw (size : RenderSize) (x_padding y_padding : Nat) : List (Nat × Nat) :=
  ((List.range size.width).map fun x =>
    (List.range size.height).map fun y => (x + x_padding, y + y_padding)).flatten

/-- `CharacterPreviewCanvas::draw_character_preview` (canvas lines 68-121),
reduced to the dots painted on the canvas: the early return for rects
smaller than the padding paints nothing; otherwise the pixel bounding box
and square render target are computed and either the rendered glyph is drawn
centered, or — when there is no session or `render` fails — the tofu
placeholder is drawn centered.  All three branches return dot lists: no
error leaves this function. -/
def drawCharacterPreview {ε φ : Type}
    (character_preview : Except (PreviewError ε) (CharacterPreview φ))
    (backend : φ → RenderSize → Except ε GlyphBitmap)
    (rect_width rect_height : Nat) : List (Nat × Nat) :=
  if rect_width < RENDER_PADDING_IN_CELLS ∨ rect_height < RENDER_PADDING_IN_CELLS then []
  else
    let canvas_pixel_size := canvasPixelSize rect_width rect_height
    let render_pixel_size := renderPixelSize canvas_pixel_size
    match character_preview with
    | .ok cp =>
      match cp.render backend render_pixel_size with
      | .ok rendered_character =>
        let glyph_size := rendered_character.glyph_size
        let x_padding := (canvas_pixel_size.width - glyph_size.width) / 2
        let y_padding := (canvas_pixel_size.height - glyph_size.height) / 2
        characterPreviewShapeDraw rendered_character x_padding y_padding
      | .error _ =>
        let x_padding := (canvas_pixel_size.width - render_pixel_size.width) / 2
        let y_padding := (canvas_pixel_size.height - render_pixel_size.height) / 2
        toufuShapeDraw render_pixel_size x_padding y_padding
    | .error _ =>
      let x_padding := (canvas_pixel_size.width - render_pixel_size.width) / 2
      let y_padding := (canvas_pixel_size.height - render_pixel_size.height) / 2
      toufuShapeDraw render_pixel_size x_padding y_padding

/-! Navigation sequences, for stating reachability invariants of the
session (`previous_preview_font` / `next_preview_font` in the canvas file
discard the `Result` and keep the mutated session). -/

/-- One font-switch request issued to the session. -/
inductive NavOp where
  | prev
  | next
deriving Repr, DecidableEq

/-- Apply one navigation call, keeping the post-call state and the result. -/
def applyNavOp {ε φ : Type} (loadFace : String → Except ε φ)
    (cp : CharacterPreview φ) (op : NavOp) :
    CharacterPreview φ × Except (PreviewError ε) Unit :=
  match op with
  | .prev => cp.select_previous_font loadFace
  | .next => cp.select_next_font loadFace

/-- Run a sequence of navigation calls, keeping only the session state (as
the canvas layer does: errors are discarded, the mutated session is kept). -/
def runNavOps {ε φ : Type} (loadFace : String → Except ε φ)
    (cp : CharacterPreview φ) : List NavOp → CharacterPreview φ
  | [] => cp
  | op :: ops => runNavOps loadFace (applyNavOp loadFace cp op).1 ops

/-! ### Helper lemmas about the rasterizer grid -/

lemma renderGrid_bitmap_length (size : RenderSize) (gb : GlyphBitmap) :
    (renderGrid size gb).bitmap.length = size.height := by
  simp [renderGrid]

lemma renderGrid_row_length (size : RenderSize) (gb : GlyphBitmap) :
    ∀ row ∈ (renderGrid size gb).bitmap, row.length = size.width := by
  intro row hrow
  simp only [renderGrid, List.mem_map] at hrow
  obtain ⟨y, _, rfl⟩ := hrow
  simp

lemma renderGrid_glyph_size (size : RenderSize) (gb : GlyphBitmap) :
    (renderGrid size gb).glyph_size =
      RenderSize.new (min size.width gb.width) (min size.height gb.rows) := rfl

lemma getD_map_range {β : Type} (n i : Nat) (f : Nat → β) (d : β) :
    ((List.range n).map f).getD i d = if i < n then f i else d := by
  rcases Nat.lt_or_ge i n with h | h
  · rw [List.getD_eq_getElem?_getD, List.getElem?_map, List.getElem?_range h, if_pos h]
    rfl
  · rw [List.getD_eq_getElem?_getD, List.getElem?_map,
      show (List.range n)[i]? = (none : Option Nat) from
        List.getElem?_eq_none (by simpa using h),
      if_neg (Nat.not_lt.mpr h)]
    rfl

lemma renderGrid_pixelAt (size : RenderSize) (gb : GlyphBitmap) (x y : Nat) :
    (renderGrid size gb).pixelAt x y =
      if x < min size.width gb.width ∧ y < min size.height gb.rows then
        gb.buffer.getD (y * min size.width gb.width + x) 0
      else 0 := by
  unfold renderGrid RenderedCharacter.pixelAt
  rw [getD_map_range]
  by_cases hy : y < size.height
  · rw [if_pos hy, getD_map_range]
    by_cases hx : x < size.width
    · rw [if_pos hx]
    · rw [if_neg hx, if_neg (by omega)]
  · rw [if_neg hy, if_neg (by omega)]
    rfl

/-! ### Helper lemmas about the candidate navigator -/

lemma getElem?_zero_eq_headD {α : Type} (items : List α) (d : α) (h : items ≠ []) :
    items[0]? = some (items.headD d) := by
  cases items with
  | nil => exact absurd rfl h
  | cons a l => simp

lemma StatefulVec.new_zero_currentIndex {α : Type} (items : List α) (h : items ≠ []) :
    (StatefulVec.new items (some 0)).currentIndex = some 0 := by
  unfold new
  simp [List.length_pos.mpr h]

lemma StatefulVec.new_items {α : Type} (items : List α) (idx : Option Nat) :
    (StatefulVec.new items idx).items = items := rfl

lemma StatefulVec.select_if_found_items {α : Type} [DecidableEq α] (sv : StatefulVec α)
    (target : α) : (sv.select_if_found target).items = sv.items := by
  unfold select_if_found
  split <;> rfl

lemma StatefulVec.select_if_found_mem {α : Type} [DecidableEq α] (sv : StatefulVec α)
    (target : α) (h : target ∈ sv.items) :
    ∃ i, (sv.select_if_found target).currentIndex = some i ∧ i < sv.items.length ∧
      sv.items[i]? = some target := by
  have hsome : (sv.items.findIdx? (fun x => x = target)).isSome := by
    rw [List.findIdx?_isSome, List.any_eq_true]
    exact ⟨target, h, by simp⟩
  obtain ⟨i, hi⟩ := Option.isSome_iff_exists.mp hsome
  obtain ⟨hlen, hp, -⟩ := List.findIdx?_eq_some_iff_getElem.mp hi
  refine ⟨i, ?_, hlen, ?_⟩
  · unfold select_if_found
    rw [hi]
  · rw [List.getElem?_eq_getElem hlen]
    simpa using hp

lemma StatefulVec.select_if_found_not_mem {α : Type} [DecidableEq α] (sv : StatefulVec α)
    (target : α) (h : target ∉ sv.items) : sv.select_if_found target = sv := by
  unfold select_if_found
  rw [List.findIdx?_eq_none_iff.mpr ?_]
  intro x hx
  simp only [decide_eq_false_iff_not]
  intro hxe
  exact h (hxe ▸ hx)

lemma StatefulVec.select_previous_items {α : Type} (sv : StatefulVec α) :
    sv.select_previous.items = sv.items := by
  unfold select_previous
  split <;> rfl

lemma StatefulVec.select_next_items {α : Type} (sv : StatefulVec α) :
    sv.select_next.items = sv.items := by
  unfold select_next
  split <;> rfl

lemma StatefulVec.select_previous_inv {α : Type} (sv : StatefulVec α) (i : Nat)
    (hi : sv.currentIndex = some i) (hlen : i < sv.items.length) :
    ∃ j, sv.select_previous.currentIndex = some j ∧ j < sv.items.length := by
  unfold select_previous has_previous
  rw [hi]
  by_cases h0 : 0 < i
  · simp only [h0, decide_eq_true_eq, if_pos, hi, Option.map_some']
    exact ⟨i - 1, by simp [h0], by omega⟩
  · simp only [decide_eq_true_eq, h0, if_false]
    exact ⟨i, by simp [h0, hi], hlen⟩

lemma StatefulVec.select_next_inv {α : Type} (sv : StatefulVec α) (i : Nat)
    (hi : sv.currentIndex = some i) (hlen : i < sv.items.length) :
    ∃ j, sv.select_next.currentIndex = some j ∧ j < sv.items.length := by
  unfold select_next has_next
  rw [hi]
  by_cases h0 : i + 1 < sv.items.length
  · exact ⟨i + 1, by simp [h0, hi], h0⟩
  · exact ⟨i, by simp [h0, hi], hlen⟩

lemma StatefulVec.current_item_isSome {α : Type} (sv : StatefulVec α) (i : Nat)
    (hi : sv.currentIndex = some i) (hlen : i < sv.items.length) :
    sv.current_item = some (sv.items.get ⟨i, hlen⟩) := by
  unfold current_item
  rw [hi]
  simp [List.getElem?_eq_getElem hlen]

lemma initialNavigator_items (paths : List String) (preferred : Option String) :
    (CharacterPreview.initialNavigator paths preferred).items = paths := by
  unfold CharacterPreview.initialNavigator
  cases preferred with
  | none => rfl
  | some p =>
    show ((StatefulVec.new paths (some 0)).select_if_found p).items = paths
    rw [StatefulVec.select_if_found_items, StatefulVec.new_items]

lemma initialNavigator_inv (paths : List String) (preferred : Option String)
    (h : paths ≠ []) :
    ∃ i, (CharacterPreview.initialNavigator paths preferred).currentIndex = some i ∧
      i < paths.length := by
  unfold CharacterPreview.initialNavigator
  cases preferred with
  | none =>
    exact ⟨0, StatefulVec.new_zero_currentIndex paths h, List.length_pos.mpr h⟩
  | some p =>
    show ∃ i, ((StatefulVec.new paths (some 0)).select_if_found p).currentIndex = some i ∧
      i < paths.length
    by_cases hp : p ∈ paths
    · obtain ⟨i, hidx, hlen, -⟩ :=
        StatefulVec.select_if_found_mem (StatefulVec.new paths (some 0)) p
          (by rwa [StatefulVec.new_items])
      exact ⟨i, hidx, by simpa [StatefulVec.new_items] using hlen⟩
    · rw [StatefulVec.select_if_found_not_mem _ _ (by simpa [StatefulVec.new_items] using hp)]
      exact ⟨0, StatefulVec.new_zero_currentIndex paths h, List.length_pos.mpr h⟩

lemma initialNavigator_current_item (paths : List String) (preferred : Option String)
    (hne : paths ≠ []) :
    (CharacterPreview.initialNavigator paths preferred).current_item =
      some (match preferred with
        | some p => if p ∈ paths then p else paths.headD ""
        | none => paths.headD "") := by
  unfold CharacterPreview.initialNavigator
  cases preferred with
  | none =>
    show (StatefulVec.new paths (some 0)).current_item = some (paths.headD "")
    unfold StatefulVec.current_item
    rw [StatefulVec.new_zero_currentIndex paths hne]
    exact getElem?_zero_eq_headD paths "" hne
  | some p =>
    show ((StatefulVec.new paths (some 0)).select_if_found p).current_item
      = some (if p ∈ paths then p else paths.headD "")
    by_cases hp : p ∈ paths
    · rw [if_pos hp]
      obtain ⟨i, hidx, hlen, hget⟩ :=
        StatefulVec.select_if_found_mem (StatefulVec.new paths (some 0)) p
          (by rwa [StatefulVec.new_items])
      unfold StatefulVec.current_item
      rw [hidx, StatefulVec.select_if_found_items, StatefulVec.new_items]
      rwa [StatefulVec.new_items] at hget
    · rw [if_neg hp, StatefulVec.select_if_found_not_mem _ _
        (by simpa [StatefulVec.new_items] using hp)]
      unfold StatefulVec.current_item
      rw [StatefulVec.new_zero_currentIndex paths hne]
      exact getElem?_zero_eq_headD paths "" hne

/-! ### Claim theorems -/

/-- C2 (code bug): when the glyph bitmap is wider than the render target, the
copy loop reads the source buffer with the *clipped* width as row stride
(`buffer[y * x_max + x]`), permuting source pixels instead of clipping them.
At target 2×2 over a 3-wide, 2-row bitmap `[1,2,3,4,5,6]`, the returned grid
holds 3 at grid position (0, 1), while the source bitmap's coverage at pixel
(0, 1) is 4. -/
theorem c2_render_clip_misindexes :
    CharacterPreview.render (ε := Unit) (φ := Unit)
        (fun _ _ => .ok (GlyphBitmap.mk 3 2 [1, 2, 3, 4, 5, 6]))
        (CharacterPreview.mk 'x' (StatefulVec.new ["a"] (some 0)) ())
        (RenderSize.new 2 2)
      = .ok (RenderedCharacter.mk [[1, 2], [3, 4]] (RenderSize.new 2 2))
    ∧ (RenderedCharacter.mk [[1, 2], [3, 4]] (RenderSize.new 2 2)).pixelAt 0 1 = 3
    ∧ (GlyphBitmap.mk 3 2 [1, 2, 3, 4, 5, 6]).coverageAt 0 1 = 4
    ∧ (3 : Nat) ≠ 4 := by
  exact ⟨rfl, rfl, rfl, by decide⟩

/-- C3: a successful `render(target_size)` returns a glyph extent bounded by
the target in both axes, a bitmap of exactly `target_size.height` rows of
`target_size.width` bytes each, and a zero at every grid cell outside the
`glyph_size` extent. -/
theorem c3_render_shape {ε φ : Type} (backend : φ → RenderSize → Except ε GlyphBitmap)
    (cp : CharacterPreview φ) (size : RenderSize) (rc : RenderedCharacter)
    (h : cp.render backend size = .ok rc) :
    rc.glyph_size.width ≤ size.width ∧ rc.glyph_size.height ≤ size.height ∧
    rc.bitmap.length = size.height ∧
    (∀ row ∈ rc.bitmap, row.length = size.width) ∧
    (∀ x y, rc.glyph_size.width ≤ x ∨ rc.glyph_size.height ≤ y → rc.pixelAt x y = 0) := by
  unfold CharacterPreview.render at h
  cases hb : backend cp.current_font size with
  | error e => rw [hb] at h; exact absurd h (by simp)
  | ok gb =>
    rw [hb] at h
    injection h with h
    subst h
    refine ⟨?_, ?_, renderGrid_bitmap_length size gb, renderGrid_row_length size gb, ?_⟩
    · simp [renderGrid_glyph_size, RenderSize.new]
    · simp [renderGrid_glyph_size, RenderSize.new]
    · intro x y hxy
      rw [renderGrid_pixelAt]
      rw [renderGrid_glyph_size] at hxy
      simp only [RenderSize.new] at hxy
      rw [if_neg (by omega)]

/-- Witness for C3 at a concrete backend, session and target size. -/
theorem c3_render_shape_witness :
    CharacterPreview.render (ε := Unit) (φ := Unit)
        (fun _ _ => .ok (GlyphBitmap.mk 1 1 [9]))
        (CharacterPreview.mk 'x' (StatefulVec.new ["a"] (some 0)) ())
        (RenderSize.new 3 2)
      = .ok (RenderedCharacter.mk [[9, 0, 0], [0, 0, 0]] (RenderSize.new 1 1))
    ∧ ((RenderedCharacter.mk [[9, 0, 0], [0, 0, 0]] (RenderSize.new 1 1)).glyph_size.width ≤ 3
      ∧ (RenderedCharacter.mk [[9, 0, 0], [0, 0, 0]] (RenderSize.new 1 1)).glyph_size.height ≤ 2
      ∧ (RenderedCharacter.mk [[9, 0, 0], [0, 0, 0]] (RenderSize.new 1 1)).bitmap.length = 2
      ∧ (∀ row ∈ (RenderedCharacter.mk [[9, 0, 0], [0, 0, 0]] (RenderSize.new 1 1)).bitmap,
          row.length = 3)
      ∧ (∀ x y, (RenderedCharacter.mk [[9, 0, 0], [0, 0, 0]] (RenderSize.new 1 1)).glyph_size.width ≤ x
          ∨ (RenderedCharacter.mk [[9, 0, 0], [0, 0, 0]] (RenderSize.new 1 1)).glyph_size.height ≤ y →
          (RenderedCharacter.mk [[9, 0, 0], [0, 0, 0]] (RenderSize.new 1 1)).pixelAt x y = 0)) :=
  ⟨rfl, c3_render_shape (ε := Unit) (φ := Unit)
    (fun _ _ => .ok (GlyphBitmap.mk 1 1 [9]))
    (CharacterPreview.mk 'x' (StatefulVec.new ["a"] (some 0)) ())
    (RenderSize.new 3 2) _ rfl⟩

/-- C4: `CharacterPreview::new` fails with `GlyphNotFound` exactly when the
font matcher returns an empty candidate list; with a non-empty list (or a
matcher error) the construction never returns `GlyphNotFound`. -/
theorem c4_glyph_not_found_iff_empty {ε φ : Type} (fontsFor : Except ε (List String))
    (libInit : Except ε Unit) (loadFace : String → Except ε φ) (chr : Char)
    (preferred : Option String) :
    (∃ c, CharacterPreview.new fontsFor libInit loadFace chr preferred
        = .error (.glyphNotFound c))
      ↔ fontsFor = .ok [] := by
  unfold CharacterPreview.new
  cases fontsFor with
  | error e => simp
  | ok font_paths =>
    by_cases he : font_paths.isEmpty
    · rw [List.isEmpty_iff] at he
      subst he
      simp
    · have he' : font_paths ≠ [] := by simpa [List.isEmpty_iff] using he
      constructor
      · rintro ⟨c, hc⟩
        exfalso
        simp only [he, Bool.false_eq_true, if_false] at hc
        split at hc
        · exact absurd hc (by simp)
        · split at hc
          · exact absurd hc (by simp)
          · split at hc
            · exact absurd hc (by simp)
            · exact absurd hc (by simp)
      · intro hcontra
        exact absurd (by injection hcontra) he'

lemma new_ok_unfold {ε φ : Type} (paths : List String) (libInit : Except ε Unit)
    (loadFace : String → Except ε φ) (chr : Char) (preferred : Option String) :
    CharacterPreview.new (.ok paths) libInit loadFace chr preferred =
      if paths.isEmpty then .error (.glyphNotFound chr)
      else match libInit with
        | .error e => .error (.backend e)
        | .ok _ =>
          match (CharacterPreview.initialNavigator paths preferred).current_item with
          | none => .error .panicked
          | some current_path =>
            match loadFace current_path with
            | .error e => .error (.backend e)
            | .ok current_font =>
              .ok (CharacterPreview.mk chr (CharacterPreview.initialNavigator paths preferred)
                current_font) := rfl

lemma new_ok_reduction {ε φ : Type} (loadFace : String → Except ε φ) (chr : Char)
    (paths : List String) (preferred : Option String) (hne : paths.isEmpty = false) :
    CharacterPreview.new (.ok paths) (.ok ()) loadFace chr preferred =
      match (CharacterPreview.initialNavigator paths preferred).current_item with
      | none => .error .panicked
      | some current_path =>
        match loadFace current_path with
        | .error e => .error (.backend e)
        | .ok current_font =>
          .ok (CharacterPreview.mk chr (CharacterPreview.initialNavigator paths preferred)
            current_font) := by
  rw [new_ok_unfold, if_neg (by simp [hne])]

/-- C5: with a non-empty candidate list, a successful library init and a face
that loads at the selected path, construction succeeds and the current font
path is the preferred path when it occurs among the candidates, and the first
candidate otherwise (also when no preference is given). -/
theorem c5_new_selects_preferred {ε φ : Type} (loadFace : String → Except ε φ)
    (chr : Char) (paths : List String) (preferred : Option String) (face : φ)
    (target : String)
    (htarget : target = (match preferred with
        | some p => if p ∈ paths then p else paths.headD ""
        | none => paths.headD ""))
    (hne : paths ≠ [])
    (hload : loadFace target = .ok face) :
    CharacterPreview.new (.ok paths) (.ok ()) loadFace chr preferred
      = .ok (CharacterPreview.mk chr (CharacterPreview.initialNavigator paths preferred) face)
    ∧ (CharacterPreview.mk chr (CharacterPreview.initialNavigator paths preferred) face
        ).get_current_font_path = some target := by
  have hcur : (CharacterPreview.initialNavigator paths preferred).current_item = some target := by
    rw [htarget]
    exact initialNavigator_current_item paths preferred hne
  constructor
  · rw [new_ok_reduction loadFace chr paths preferred (by simpa [List.isEmpty_iff] using hne)]
    simp only [hcur, hload]
  · exact hcur

/-- Witness for C5: candidates `["a", "b"]` with preferred path "b". -/
theorem c5_new_selects_preferred_witness :
    (["a", "b"] : List String) ≠ []
    ∧ CharacterPreview.new (.ok ["a", "b"]) (.ok ()) (fun p => Except.ok (ε := Unit) p) 'x'
        (some "b")
      = .ok (CharacterPreview.mk 'x'
          (CharacterPreview.initialNavigator ["a", "b"] (some "b")) "b")
    ∧ (CharacterPreview.mk 'x'
        (CharacterPreview.initialNavigator ["a", "b"] (some "b")) "b").get_current_font_path
      = some "b" := by
  have h := c5_new_selects_preferred (ε := Unit) (fun p => Except.ok p) 'x' ["a", "b"]
    (some "b") "b" "b" (by decide) (by decide) rfl
  exact ⟨by decide, h.1, h.2⟩

/-- The navigator move performed by a font-switch call before the reload
(`select_previous` for LEFT, `select_next` for RIGHT). -/
def navMove (op : NavOp) (sv : StatefulVec String) : StatefulVec String :=
  match op with
  | .prev => sv.select_previous
  | .next => sv.select_next

lemma applyNavOp_fst_nav {ε φ : Type} (loadFace : String → Except ε φ)
    (cp : CharacterPreview φ) (op : NavOp) :
    (applyNavOp loadFace cp op).1.paths_for_matching_fonts =
      navMove op cp.paths_for_matching_fonts := by
  cases op <;>
    · simp only [applyNavOp, CharacterPreview.select_previous_font,
        CharacterPreview.select_next_font, navMove]
      split
      · split <;> rfl
      · rfl

lemma applyNavOp_fst_items {ε φ : Type} (loadFace : String → Except ε φ)
    (cp : CharacterPreview φ) (op : NavOp) :
    (applyNavOp loadFace cp op).1.paths_for_matching_fonts.items =
      cp.paths_for_matching_fonts.items := by
  rw [applyNavOp_fst_nav]
  cases op with
  | prev => exact StatefulVec.select_previous_items _
  | next => exact StatefulVec.select_next_items _

lemma applyNavOp_snd_of_current {ε φ : Type} (loadFace : String → Except ε φ)
    (cp : CharacterPreview φ) (op : NavOp) (p : String)
    (hcur : (navMove op cp.paths_for_matching_fonts).current_item = some p) :
    (applyNavOp loadFace cp op).2 =
      match loadFace p with
      | .ok _ => .ok ()
      | .error e => .error (.backend e) := by
  cases op <;>
    · simp only [applyNavOp, CharacterPreview.select_previous_font,
        CharacterPreview.select_next_font, navMove] at hcur ⊢
      split
      · next font_path heq =>
          rw [hcur] at heq
          injection heq with heq
          subst heq
          cases hl : loadFace p <;> rfl
      · next heq =>
          rw [hcur] at heq
          exact absurd heq (by simp)

lemma navInv_preserved {ε φ : Type} (loadFace : String → Except ε φ)
    (cp : CharacterPreview φ) (op : NavOp) (i : Nat)
    (hi : cp.paths_for_matching_fonts.currentIndex = some i)
    (hlen : i < cp.paths_for_matching_fonts.items.length) :
    ∃ j, (applyNavOp loadFace cp op).1.paths_for_matching_fonts.currentIndex = some j ∧
      j < (applyNavOp loadFace cp op).1.paths_for_matching_fonts.items.length := by
  rw [applyNavOp_fst_nav]
  cases op with
  | prev =>
    obtain ⟨j, hj, hjlen⟩ := StatefulVec.select_previous_inv _ i hi hlen
    exact ⟨j, hj, by rwa [navMove, StatefulVec.select_previous_items]⟩
  | next =>
    obtain ⟨j, hj, hjlen⟩ := StatefulVec.select_next_inv _ i hi hlen
    exact ⟨j, hj, by rwa [navMove, StatefulVec.select_next_items]⟩

lemma runNavOps_inv {ε φ : Type} (loadFace : String → Except ε φ) (ops : List NavOp)
    (cp : CharacterPreview φ)
    (h : ∃ i, cp.paths_for_matching_fonts.currentIndex = some i ∧
      i < cp.paths_for_matching_fonts.items.length) :
    ∃ i, (runNavOps loadFace cp ops).paths_for_matching_fonts.currentIndex = some i ∧
      i < (runNavOps loadFace cp ops).paths_for_matching_fonts.items.length := by
  induction ops generalizing cp with
  | nil => exact h
  | cons op ops ih =>
    obtain ⟨i, hi, hlen⟩ := h
    exact ih _ (navInv_preserved loadFace cp op i hi hlen)

lemma navInv_new {ε φ : Type} {fontsFor : Except ε (List String)} {libInit : Except ε Unit}
    {loadFace : String → Except ε φ} {chr : Char} {preferred : Option String}
    {cp : CharacterPreview φ}
    (h : CharacterPreview.new fontsFor libInit loadFace chr preferred = .ok cp) :
    ∃ i, cp.paths_for_matching_fonts.currentIndex = some i ∧
      i < cp.paths_for_matching_fonts.items.length := by
  cases fontsFor with
  | error e => exact absurd h (by simp [CharacterPreview.new])
  | ok paths =>
    rw [new_ok_unfold] at h
    by_cases he : paths.isEmpty
    · rw [if_pos he] at h
      exact absurd h (by simp)
    · rw [if_neg (by simpa using he)] at h
      have hne : paths ≠ [] := by simpa [List.isEmpty_iff] using he
      cases libInit with
      | error e => exact absurd h (by simp)
      | ok u =>
        obtain ⟨i, hidx, hlen⟩ := initialNavigator_inv paths preferred hne
        cases hcur : (CharacterPreview.initialNavigator paths preferred).current_item with
        | none =>
          simp only [hcur] at h
          exact absurd h (by simp)
        | some target =>
          simp only [hcur] at h
          cases hload : loadFace target with
          | error e =>
            simp only [hload] at h
            exact absurd h (by simp)
          | ok face =>
            simp only [hload, Except.ok.injEq] at h
            subst h
            exact ⟨i, hidx, by rwa [initialNavigator_items]⟩

/-- C10: after a successful construction, the navigator's `current_item()` is
`some` after any sequence of font-switch calls, and no font-switch call ever
takes the `None` branch that returns `GlyphNotFound`. -/
theorem c10_current_item_always_some {ε φ : Type} (fontsFor : Except ε (List String))
    (libInit : Except ε Unit) (loadFace : String → Except ε φ) (chr : Char)
    (preferred : Option String) (cp : CharacterPreview φ)
    (h : CharacterPreview.new fontsFor libInit loadFace chr preferred = .ok cp)
    (ops : List NavOp) :
    (runNavOps loadFace cp ops).get_current_font_path.isSome = true
    ∧ ∀ op c, (applyNavOp loadFace (runNavOps loadFace cp ops) op).2
      ≠ .error (.glyphNotFound c) := by
  obtain ⟨i, hi, hlen⟩ := runNavOps_inv loadFace ops cp (navInv_new h)
  constructor
  · unfold CharacterPreview.get_current_font_path
    rw [StatefulVec.current_item_isSome _ i hi hlen]
    rfl
  · intro op c
    obtain ⟨j, hj, hjlen⟩ :=
      navInv_preserved loadFace (runNavOps loadFace cp ops) op i hi hlen
    rw [applyNavOp_fst_nav] at hj hjlen
    cases op with
    | prev =>
      rw [applyNavOp_snd_of_current loadFace _ .prev _
        (StatefulVec.current_item_isSome _ j hj
          (by simpa [navMove, StatefulVec.select_previous_items] using hjlen))]
      split <;> simp
    | next =>
      rw [applyNavOp_snd_of_current loadFace _ .next _
        (StatefulVec.current_item_isSome _ j hj
          (by simpa [navMove, StatefulVec.select_next_items] using hjlen))]
      split <;> simp

lemma applyNavOp_eq_of_current_ok {ε φ : Type} (loadFace : String → Except ε φ)
    (cp : CharacterPreview φ) (op : NavOp) (p : String) (f : φ)
    (hcur : (navMove op cp.paths_for_matching_fonts).current_item = some p)
    (hok : loadFace p = .ok f) :
    applyNavOp loadFace cp op =
      (CharacterPreview.mk cp.chr (navMove op cp.paths_for_matching_fonts) f, .ok ()) := by
  cases op <;>
    · simp only [applyNavOp, CharacterPreview.select_previous_font,
        CharacterPreview.select_next_font, navMove] at hcur ⊢
      split
      · next fp heq =>
          rw [hcur] at heq
          injection heq with heq
          subst heq
          simp only [hok]
      · next heq =>
          rw [hcur] at heq
          exact absurd heq (by simp)

lemma applyNavOp_eq_of_current_error {ε φ : Type} (loadFace : String → Except ε φ)
    (cp : CharacterPreview φ) (op : NavOp) (p : String) (e : ε)
    (hcur : (navMove op cp.paths_for_matching_fonts).current_item = some p)
    (hfail : loadFace p = .error e) :
    applyNavOp loadFace cp op =
      (CharacterPreview.mk cp.chr (navMove op cp.paths_for_matching_fonts) cp.current_font,
        .error (.backend e)) := by
  cases op <;>
    · simp only [applyNavOp, CharacterPreview.select_previous_font,
        CharacterPreview.select_next_font, navMove] at hcur ⊢
      split
      · next fp heq =>
          rw [hcur] at heq
          injection heq with heq
          subst heq
          simp only [hfail]
      · next heq =>
          rw [hcur] at heq
          exact absurd heq (by simp)

/-- A deterministic face loader for concrete runs: every path loads as itself
except "b", which fails to load. -/
def loadFaceAB : String → Except Unit String :=
  fun p => if p = "b" then .error () else .ok p

/-- The session produced by `CharacterPreview::new` over candidates
`["a", "b"]` with no preference under `loadFaceAB`: cursor at index 0, face
loaded from "a". -/
def cpAB0 : CharacterPreview String :=
  { chr := 'x', paths_for_matching_fonts := { items := ["a", "b"], currentIndex := some 0 },
    current_font := "a" }

/-- The session after one `select_next_font` from `cpAB0` whose reload of "b"
failed: cursor moved to index 1, face still the one loaded from "a". -/
def cpAB1 : CharacterPreview String :=
  { chr := 'x', paths_for_matching_fonts := { items := ["a", "b"], currentIndex := some 1 },
    current_font := "a" }

/-- C1 counterexample: in a freshly constructed session over `["a", "b"]`,
`select_next_font` whose reload of "b" fails leaves the previously-loaded
face in place (second conjunct) but the Navigator cursor now points at "b",
a path whose face is not the loaded one — `loadFaceAB "b"` does not yield
the loaded face, refuting "the loaded face still corresponds to the path at
the current Navigator index". -/
theorem c1_counterexample :
    CharacterPreview.new (.ok ["a", "b"]) (.ok ()) loadFaceAB 'x' none = .ok cpAB0
    ∧ cpAB0.select_next_font loadFaceAB = (cpAB1, .error (.backend ()))
    ∧ cpAB1.current_font = cpAB0.current_font
    ∧ cpAB1.get_current_font_path = some "b"
    ∧ ¬ loadFaceAB "b" = .ok cpAB1.current_font := by
  refine ⟨rfl, rfl, rfl, rfl, by simp [loadFaceAB, cpAB1]⟩

/-- C1 amended: if the face reload at the new current path fails, the
session's previously-loaded face is left unchanged and the call reports the
load error, but the Navigator cursor remains at the moved position — so the
loaded face corresponds to the previously selected path, not to the path at
the current Navigator index. -/
theorem c1_amended_reload_failure {ε φ : Type} (loadFace : String → Except ε φ)
    (cp : CharacterPreview φ) (op : NavOp) (p : String) (e : ε)
    (hmove : (navMove op cp.paths_for_matching_fonts).current_item = some p)
    (hfail : loadFace p = .error e) :
    (applyNavOp loadFace cp op).1.current_font = cp.current_font
    ∧ (applyNavOp loadFace cp op).1.paths_for_matching_fonts
        = navMove op cp.paths_for_matching_fonts
    ∧ (applyNavOp loadFace cp op).2 = .error (.backend e) := by
  rw [applyNavOp_eq_of_current_error loadFace cp op p e hmove hfail]
  exact ⟨rfl, rfl, rfl⟩

/-- Witness for C1 (amended) at the concrete failing reload from `cpAB0`. -/
theorem c1_amended_reload_failure_witness :
    (navMove .next cpAB0.paths_for_matching_fonts).current_item = some "b"
    ∧ loadFaceAB "b" = .error ()
    ∧ ((applyNavOp loadFaceAB cpAB0 .next).1.current_font = cpAB0.current_font
      ∧ (applyNavOp loadFaceAB cpAB0 .next).1.paths_for_matching_fonts
          = navMove .next cpAB0.paths_for_matching_fonts
      ∧ (applyNavOp loadFaceAB cpAB0 .next).2 = .error (.backend ())) :=
  ⟨rfl, rfl, c1_amended_reload_failure loadFaceAB cpAB0 .next "b" () rfl rfl⟩

/-- C9 counterexample: the reachable session `cpAB1` (obtained from `cpAB0`
by one failed `select_next_font`) sits at the last index; calling
`select_next_font` there leaves the observable state unchanged but returns an
error instead of succeeding, refuting "the call succeeds". -/
theorem c9_counterexample :
    CharacterPreview.new (.ok ["a", "b"]) (.ok ()) loadFaceAB 'x' none = .ok cpAB0
    ∧ runNavOps loadFaceAB cpAB0 [.next] = cpAB1
    ∧ cpAB1.has_next_font = false
    ∧ cpAB1.select_next_font loadFaceAB = (cpAB1, .error (.backend ())) := by
  refine ⟨rfl, rfl, rfl, rfl⟩

/-- C9 amended: at a bound (`has_previous_font` false for a backward call,
`has_next_font` false for a forward call) the cursor does not move and the
current font path is unchanged, but the face is still re-loaded at the
current path: when that reload returns the already-loaded face the call
succeeds and the session is fully unchanged; when the reload fails the
session is also unchanged but the call returns the load error instead of
succeeding. -/
theorem c9_amended_bound_noop {ε φ : Type} (loadFace : String → Except ε φ)
    (cp : CharacterPreview φ) (op : NavOp) (p : String)
    (hbound : (match op with
      | .prev => cp.has_previous_font
      | .next => cp.has_next_font) = false)
    (hcur : cp.get_current_font_path = some p) :
    (applyNavOp loadFace cp op).1.get_current_font_path = cp.get_current_font_path
    ∧ (loadFace p = .ok cp.current_font → applyNavOp loadFace cp op = (cp, .ok ()))
    ∧ ∀ e, loadFace p = .error e →
        applyNavOp loadFace cp op = (cp, .error (.backend e)) := by
  have hnoop : navMove op cp.paths_for_matching_fonts = cp.paths_for_matching_fonts := by
    cases op with
    | prev =>
      simp only [CharacterPreview.has_previous_font] at hbound
      simp [navMove, StatefulVec.select_previous, hbound]
    | next =>
      simp only [CharacterPreview.has_next_font] at hbound
      simp [navMove, StatefulVec.select_next, hbound]
  have hmove : (navMove op cp.paths_for_matching_fonts).current_item = some p := by
    rw [hnoop]
    exact hcur
  refine ⟨?_, ?_, ?_⟩
  · unfold CharacterPreview.get_current_font_path
    rw [applyNavOp_fst_nav, hnoop]
  · intro hok
    rw [applyNavOp_eq_of_current_ok loadFace cp op p cp.current_font hmove hok, hnoop]
  · intro e hfail
    rw [applyNavOp_eq_of_current_error loadFace cp op p e hmove hfail, hnoop]

/-- Witness for C9 (amended) at the bound state `cpAB1`, where reloading the
current path "b" fails. -/
theorem c9_amended_bound_noop_witness :
    cpAB1.has_next_font = false
    ∧ cpAB1.get_current_font_path = some "b"
    ∧ loadFaceAB "b" = .error ()
    ∧ ((applyNavOp loadFaceAB cpAB1 .next).1.get_current_font_path
        = cpAB1.get_current_font_path
      ∧ applyNavOp loadFaceAB cpAB1 .next = (cpAB1, .error (.backend ()))) := by
  have h := c9_amended_bound_noop loadFaceAB cpAB1 .next "b" rfl rfl
  exact ⟨rfl, rfl, rfl, h.1, h.2.2 () rfl⟩

/-- Witness for C10: a one-candidate session and the call sequence
next, next, prev. -/
theorem c10_current_item_always_some_witness :
    CharacterPreview.new (ε := Unit) (.ok ["a"]) (.ok ())
        (fun p => Except.ok p) 'x' none
      = .ok (CharacterPreview.mk 'x'
          (CharacterPreview.initialNavigator ["a"] none) "a")
    ∧ ((runNavOps (fun p => Except.ok (ε := Unit) p)
          (CharacterPreview.mk 'x' (CharacterPreview.initialNavigator ["a"] none) "a")
          [.next, .next, .prev]).get_current_font_path.isSome = true
      ∧ ∀ op c, (applyNavOp (fun p => Except.ok (ε := Unit) p)
          (runNavOps (fun p => Except.ok (ε := Unit) p)
            (CharacterPreview.mk 'x' (CharacterPreview.initialNavigator ["a"] none) "a")
            [.next, .next, .prev]) op).2
        ≠ .error (.glyphNotFound c)) :=
  ⟨rfl, c10_current_item_always_some (.ok ["a"]) (.ok ()) (fun p => Except.ok p) 'x' none
    _ rfl [.next, .next, .prev]⟩

/-! ### Helper lemmas about the canvas painter -/

lemma mem_characterPreviewShapeDraw (rc : RenderedCharacter) (xp yp : Nat) (q : Nat × Nat) :
    q ∈ characterPreviewShapeDraw rc xp yp ↔
      ∃ x y, y < rc.bitmap.length ∧ x < (rc.bitmap.getD y []).length ∧
        rc.pixelAt x y ≠ 0 ∧ q = (x + xp, y + yp) := by
  unfold characterPreviewShapeDraw
  rw [List.mem_flatten]
  constructor
  · rintro ⟨l, hl, hql⟩
    rw [List.mem_map] at hl
    obtain ⟨⟨y, row⟩, hyrow, rfl⟩ := hl
    rw [List.mem_map] at hql
    obtain ⟨⟨x, pix⟩, hxpix, rfl⟩ := hql
    rw [List.mem_filter] at hxpix
    obtain ⟨hxr, hpix⟩ := hxpix
    rw [List.mk_mem_enum_iff_getElem?] at hyrow hxr
    have hylen : y < rc.bitmap.length := (List.getElem?_eq_some_iff.mp hyrow).1
    have hrow : rc.bitmap.getD y [] = row := by
      rw [List.getD_eq_getElem?_getD, hyrow]
      rfl
    have hxlen : x < row.length := (List.getElem?_eq_some_iff.mp hxr).1
    have hpixval : rc.pixelAt x y = pix := by
      unfold RenderedCharacter.pixelAt
      rw [hrow, List.getD_eq_getElem?_getD, hxr]
      rfl
    refine ⟨x, y, hylen, ?_, ?_, rfl⟩
    · rw [hrow]
      exact hxlen
    · rw [hpixval]
      simpa using hpix
  · rintro ⟨x, y, hy, hx, hpix, rfl⟩
    have hrow : rc.bitmap[y]? = some (rc.bitmap.getD y []) := by
      rw [List.getD_eq_getElem?_getD, List.getElem?_eq_getElem hy]
      rfl
    have hcell : (rc.bitmap.getD y [])[x]? = some ((rc.bitmap.getD y []).getD x 0) := by
      rw [List.getD_eq_getElem?_getD (rc.bitmap.getD y []) x 0, List.getElem?_eq_getElem hx]
      rfl
    refine ⟨_, List.mem_map.mpr
      ⟨(y, rc.bitmap.getD y []), List.mk_mem_enum_iff_getElem?.mpr hrow, rfl⟩, ?_⟩
    rw [List.mem_map]
    refine ⟨(x, (rc.bitmap.getD y []).getD x 0), ?_, rfl⟩
    rw [List.mem_filter]
    exact ⟨List.mk_mem_enum_iff_getElem?.mpr hcell, decide_eq_true hpix⟩

lemma mem_toufuShapeDraw (size : RenderSize) (xp yp : Nat) (q : Nat × Nat) :
    q ∈ toufuShapeDraw size xp yp ↔
      ∃ x y, x < size.width ∧ y < size.height ∧ q = (x + xp, y + yp) := by
  unfold toufuShapeDraw
  rw [List.mem_flatten]
  constructor
  · rintro ⟨l, hl, hql⟩
    rw [List.mem_map] at hl
    obtain ⟨x, hx, rfl⟩ := hl
    rw [List.mem_map] at hql
    obtain ⟨y, hy, rfl⟩ := hql
    exact ⟨x, y, List.mem_range.mp hx, List.mem_range.mp hy, rfl⟩
  · rintro ⟨x, y, hx, hy, rfl⟩
    exact ⟨_, List.mem_map.mpr ⟨x, List.mem_range.mpr hx, rfl⟩,
      List.mem_map.mpr ⟨y, List.mem_range.mpr hy, rfl⟩⟩

/-- C6: on a successful render, the canvas paints a dot at
`(x + pad_x, y + pad_y)` for exactly the grid positions `(x, y)` holding a
nonzero coverage byte, with `pad = (box_dim − glyph_dim) / 2` in floor
division against the canvas pixel bounding box; zero-coverage pixels produce
no dot and coverage magnitude is not otherwise used. -/
theorem c6_success_draws_exact_dots {ε φ : Type} (cp : CharacterPreview φ)
    (backend : φ → RenderSize → Except ε GlyphBitmap)
    (rect_width rect_height : Nat) (rc : RenderedCharacter)
    (hw : RENDER_PADDING_IN_CELLS ≤ rect_width)
    (hh : RENDER_PADDING_IN_CELLS ≤ rect_height)
    (hrender : cp.render backend (renderPixelSize (canvasPixelSize rect_width rect_height))
      = .ok rc) :
    ∀ q, q ∈ drawCharacterPreview (.ok cp) backend rect_width rect_height ↔
      ∃ x y, y < rc.bitmap.length ∧ x < (rc.bitmap.getD y []).length ∧
        rc.pixelAt x y ≠ 0 ∧
        q = (x + ((canvasPixelSize rect_width rect_height).width - rc.glyph_size.width) / 2,
             y + ((canvasPixelSize rect_width rect_height).height - rc.glyph_size.height) / 2)
    := by
  intro q
  have hdraw : drawCharacterPreview (.ok cp) backend rect_width rect_height
      = characterPreviewShapeDraw rc
          (((canvasPixelSize rect_width rect_height).width - rc.glyph_size.width) / 2)
          (((canvasPixelSize rect_width rect_height).height - rc.glyph_size.height) / 2) := by
    unfold drawCharacterPreview
    rw [if_neg (by omega)]
    simp only [hrender]
  rw [hdraw]
  exact mem_characterPreviewShapeDraw rc _ _ q

/-- Witness for C6 at a concrete 6×5-cell rectangle and a 1×1 glyph bitmap. -/
theorem c6_success_draws_exact_dots_witness :
    CharacterPreview.render (ε := Unit) (φ := Unit)
        (fun _ _ => .ok (GlyphBitmap.mk 1 1 [7]))
        (CharacterPreview.mk 'x' (StatefulVec.new ["a"] (some 0)) ())
        (renderPixelSize (canvasPixelSize 6 5))
      = .ok (RenderedCharacter.mk
          [[7, 0, 0, 0], [0, 0, 0, 0], [0, 0, 0, 0], [0, 0, 0, 0]] (RenderSize.new 1 1))
    ∧ ∀ q, q ∈ drawCharacterPreview (ε := Unit) (φ := Unit)
        (.ok (CharacterPreview.mk 'x' (StatefulVec.new ["a"] (some 0)) ()))
        (fun _ _ => .ok (GlyphBitmap.mk 1 1 [7])) 6 5 ↔
      ∃ x y,
        y < (RenderedCharacter.mk
          [[7, 0, 0, 0], [0, 0, 0, 0], [0, 0, 0, 0], [0, 0, 0, 0]]
          (RenderSize.new 1 1)).bitmap.length ∧
        x < ((RenderedCharacter.mk
          [[7, 0, 0, 0], [0, 0, 0, 0], [0, 0, 0, 0], [0, 0, 0, 0]]
          (RenderSize.new 1 1)).bitmap.getD y []).length ∧
        (RenderedCharacter.mk
          [[7, 0, 0, 0], [0, 0, 0, 0], [0, 0, 0, 0], [0, 0, 0, 0]]
          (RenderSize.new 1 1)).pixelAt x y ≠ 0 ∧
        q = (x + ((canvasPixelSize 6 5).width - 1) / 2,
             y + ((canvasPixelSize 6 5).height - 1) / 2) :=
  ⟨rfl, c6_success_draws_exact_dots
    (CharacterPreview.mk 'x' (StatefulVec.new ["a"] (some 0)) ())
    (fun _ _ => .ok (GlyphBitmap.mk 1 1 [7])) 6 5 _ (by decide) (by decide) rfl⟩

/-- C7: with no session or a failed render, the canvas draws the full tofu
square: the dot list equals `ToufuShape::draw` over the square render target
with the same floor-divided centering, every dot `(x + pad_x, y + pad_y)` for
`x`, `y` below the target side is painted, and the failure is consumed here —
the draw still returns a plain dot list. -/
theorem c7_failure_draws_tofu {ε φ : Type}
    (preview : Except (PreviewError ε) (CharacterPreview φ))
    (backend : φ → RenderSize → Except ε GlyphBitmap)
    (rect_width rect_height : Nat)
    (hw : RENDER_PADDING_IN_CELLS ≤ rect_width)
    (hh : RENDER_PADDING_IN_CELLS ≤ rect_height)
    (hfail : (∃ e, preview = .error e) ∨ ∃ cp e, preview = .ok cp ∧
      cp.render backend (renderPixelSize (canvasPixelSize rect_width rect_height))
        = .error e) :
    drawCharacterPreview preview backend rect_width rect_height
      = toufuShapeDraw (renderPixelSize (canvasPixelSize rect_width rect_height))
          (((canvasPixelSize rect_width rect_height).width -
            (renderPixelSize (canvasPixelSize rect_width rect_height)).width) / 2)
          (((canvasPixelSize rect_width rect_height).height -
            (renderPixelSize (canvasPixelSize rect_width rect_height)).height) / 2)
    ∧ ∀ q, q ∈ drawCharacterPreview preview backend rect_width rect_height ↔
        ∃ x y, x < (renderPixelSize (canvasPixelSize rect_width rect_height)).width ∧
          y < (renderPixelSize (canvasPixelSize rect_width rect_height)).height ∧
          q = (x + ((canvasPixelSize rect_width rect_height).width -
                (renderPixelSize (canvasPixelSize rect_width rect_height)).width) / 2,
               y + ((canvasPixelSize rect_width rect_height).height -
                (renderPixelSize (canvasPixelSize rect_width rect_height)).height) / 2) := by
  have hdraw : drawCharacterPreview preview backend rect_width rect_height
      = toufuShapeDraw (renderPixelSize (canvasPixelSize rect_width rect_height))
          (((canvasPixelSize rect_width rect_height).width -
            (renderPixelSize (canvasPixelSize rect_width rect_height)).width) / 2)
          (((canvasPixelSize rect_width rect_height).height -
            (renderPixelSize (canvasPixelSize rect_width rect_height)).height) / 2) := by
    rcases hfail with ⟨e, rfl⟩ | ⟨cp, e, rfl, hrender⟩
    · unfold drawCharacterPreview
      rw [if_neg (by omega)]
    · unfold drawCharacterPreview
      rw [if_neg (by omega)]
      simp only [hrender]
  refine ⟨hdraw, ?_⟩
  intro q
  rw [hdraw]
  exact mem_toufuShapeDraw _ _ _ q

/-- Witness for C7: a failed construction drawn on a 6×5-cell rectangle. -/
theorem c7_failure_draws_tofu_witness :
    drawCharacterPreview (ε := Unit) (φ := Unit) (.error .panicked)
        (fun _ _ => .error ()) 6 5
      = toufuShapeDraw (renderPixelSize (canvasPixelSize 6 5))
          (((canvasPixelSize 6 5).width - (renderPixelSize (canvasPixelSize 6 5)).width) / 2)
          (((canvasPixelSize 6 5).height - (renderPixelSize (canvasPixelSize 6 5)).height) / 2)
    ∧ ∀ q, q ∈ drawCharacterPreview (ε := Unit) (φ := Unit) (.error .panicked)
        (fun _ _ => .error ()) 6 5 ↔
      ∃ x y, x < (renderPixelSize (canvasPixelSize 6 5)).width ∧
        y < (renderPixelSize (canvasPixelSize 6 5)).height ∧
        q = (x + ((canvasPixelSize 6 5).width -
              (renderPixelSize (canvasPixelSize 6 5)).width) / 2,
             y + ((canvasPixelSize 6 5).height -
              (renderPixelSize (canvasPixelSize 6 5)).height) / 2) :=
  c7_failure_draws_tofu (.error .panicked) (fun _ _ => .error ()) 6 5
    (by decide) (by decide) (.inl ⟨.panicked, rfl⟩)

/-- C8 counterexample: the canvas pixel dimensions are `u16` products and wrap
modulo 2^16; at a 40000×10-cell rectangle the code computes a horizontal
pixel size of 14456, not `(40000 − 4) × 2 = 79992` as the claim states. -/
theorem c8_counterexample :
    canvasPixelSize 40000 10 ≠ RenderSize.new ((40000 - 4) * 2) ((10 - 4) * 4) := by
  decide

/-- C8 amended: for rectangles at least the 4-cell padding in each dimension
whose `u16` pixel products do not overflow (`(w−4)·2 < 2^16` and
`(h−4)·4 < 2^16`), the canvas pixel bounding box is `(w−4)·2 × (h−4)·4` and
the render target is the square on the smaller of the two pixel dimensions. -/
theorem c8_amended_box_and_target (rect_width rect_height : Nat)
    (_hw : RENDER_PADDING_IN_CELLS ≤ rect_width)
    (_hh : RENDER_PADDING_IN_CELLS ≤ rect_height)
    (hwfit : (rect_width - RENDER_PADDING_IN_CELLS) *
      BRAILLE_PATTERN_DOTS_PER_CELL_HORIZONTAL < 2 ^ 16)
    (hhfit : (rect_height - RENDER_PADDING_IN_CELLS) *
      BRAILLE_PATTERN_DOTS_PER_CELL_VERTICAL < 2 ^ 16) :
    canvasPixelSize rect_width rect_height
      = RenderSize.new
          ((rect_width - RENDER_PADDING_IN_CELLS) * BRAILLE_PATTERN_DOTS_PER_CELL_HORIZONTAL)
          ((rect_height - RENDER_PADDING_IN_CELLS) * BRAILLE_PATTERN_DOTS_PER_CELL_VERTICAL)
    ∧ renderPixelSize (canvasPixelSize rect_width rect_height)
      = RenderSize.new
          (min ((rect_width - RENDER_PADDING_IN_CELLS) *
              BRAILLE_PATTERN_DOTS_PER_CELL_HORIZONTAL)
            ((rect_height - RENDER_PADDING_IN_CELLS) *
              BRAILLE_PATTERN_DOTS_PER_CELL_VERTICAL))
          (min ((rect_width - RENDER_PADDING_IN_CELLS) *
              BRAILLE_PATTERN_DOTS_PER_CELL_HORIZONTAL)
            ((rect_height - RENDER_PADDING_IN_CELLS) *
              BRAILLE_PATTERN_DOTS_PER_CELL_VERTICAL)) := by
  have h1 : canvasPixelSize rect_width rect_height
      = RenderSize.new
          ((rect_width - RENDER_PADDING_IN_CELLS) * BRAILLE_PATTERN_DOTS_PER_CELL_HORIZONTAL)
          ((rect_height - RENDER_PADDING_IN_CELLS) * BRAILLE_PATTERN_DOTS_PER_CELL_VERTICAL)
      := by
    unfold canvasPixelSize
    rw [Nat.mod_eq_of_lt hwfit, Nat.mod_eq_of_lt hhfit]
  refine ⟨h1, ?_⟩
  rw [h1]
  rfl

/-- Witness for C8 (amended) at a 10×10-cell rectangle: box 12×24, square
render target 12×12. -/
theorem c8_amended_box_and_target_witness :
    RENDER_PADDING_IN_CELLS ≤ 10
    ∧ (10 - RENDER_PADDING_IN_CELLS) * BRAILLE_PATTERN_DOTS_PER_CELL_HORIZONTAL < 2 ^ 16
    ∧ (10 - RENDER_PADDING_IN_CELLS) * BRAILLE_PATTERN_DOTS_PER_CELL_VERTICAL < 2 ^ 16
    ∧ (canvasPixelSize 10 10
        = RenderSize.new ((10 - RENDER_PADDING_IN_CELLS) *
            BRAILLE_PATTERN_DOTS_PER_CELL_HORIZONTAL)
            ((10 - RENDER_PADDING_IN_CELLS) * BRAILLE_PATTERN_DOTS_PER_CELL_VERTICAL)
      ∧ renderPixelSize (canvasPixelSize 10 10)
        = RenderSize.new
            (min ((10 - RENDER_PADDING_IN_CELLS) * BRAILLE_PATTERN_DOTS_PER_CELL_HORIZONTAL)
              ((10 - RENDER_PADDING_IN_CELLS) * BRAILLE_PATTERN_DOTS_PER_CELL_VERTICAL))
            (min ((10 - RENDER_PADDING_IN_CELLS) * BRAILLE_PATTERN_DOTS_PER_CELL_HORIZONTAL)
              ((10 - RENDER_PADDING_IN_CELLS) * BRAILLE_PATTERN_DOTS_PER_CELL_VERTICAL))) :=
  ⟨by decide, by decide, by decide,
    c8_amended_box_and_target 10 10 (by decide) (by decide) (by decide) (by decide)⟩

end Cicero
